import Mathlib

/-!
Verification of the booking / reminder core of the Smart Neighborhood app
(`app.py`, `database.py`).

The SQLite database is embedded as a Lean structure of lists, one list per
table, each list holding rows in rowid (insertion) order, together with the
AUTOINCREMENT counters.  Only the columns read or written by the booking and
reminder code are modelled; write-only presentation columns (descriptions,
images, locations, timestamps, ...) are omitted since no verified operation
reads them.  TEXT dates are kept as `String`; SQLite compares TEXT with
binary collation, which on `YYYY-MM-DD` strings is the lexicographic order
on characters modelled by `strLe` below.  `NOT NULL` column constraints are
modelled at the insert operations; `FOREIGN KEY` clauses are declared in the
schema but never enforced (the code never issues `PRAGMA foreign_keys`), so
inserts and deletes ignore them, exactly as at runtime.
-/

namespace SmartNeighborhood

/-- Row of `users` (columns read by the core: `id`, `name`). -/
structure User where
  id : Nat
  name : String
  deriving DecidableEq, Repr

/-- Row of `resources` (columns read by the core: `resource_id`, `user_id`,
`title`, `availability`). -/
structure Resource where
  resource_id : Nat
  user_id : Nat
  title : String
  availability : String
  deriving DecidableEq, Repr

/-- Row of `spaces` (columns read by the core: `space_id`, `name`,
`availability`, `created_by`). -/
structure Space where
  space_id : Nat
  name : String
  availability : String
  created_by : Nat
  deriving DecidableEq, Repr

/-- Row of `events` (columns read by the core: `event_id`, `name`, `date`,
`hosted_by`). -/
structure Event where
  event_id : Nat
  name : String
  date : String
  hosted_by : Nat
  deriving DecidableEq, Repr

/-- Row of `resource_bookings` / `space_bookings` / `event_bookings`; the
three tables have the same shape (`booking_id`, `user_id`, the entity id
column, `booking_date`).  `entity_id` stands for `resource_id`, `space_id`
or `event_id` according to the table the row lives in. -/
structure Booking where
  booking_id : Nat
  user_id : Nat
  entity_id : Nat
  booking_date : String
  deriving DecidableEq, Repr

/-- Row of `messages`.  `sender_id` is `Option Nat` because the column is
nullable in SQL syntax — but the schema declares it `NOT NULL`, which is
checked by `messagesInsert`. -/
structure Message where
  message_id : Nat
  sender_id : Option Nat
  receiver_id : Nat
  content : String
  is_system_message : Bool
  deriving DecidableEq, Repr

/-- The database state: one list per table in rowid order plus the
AUTOINCREMENT counters of the tables the core inserts into. -/
structure DB where
  users : List User
  resources : List Resource
  spaces : List Space
  events : List Event
  resource_bookings : List Booking
  space_bookings : List Booking
  event_bookings : List Booking
  messages : List Message
  next_resource_booking_id : Nat
  next_space_booking_id : Nat
  next_event_booking_id : Nat
  next_message_id : Nat
  deriving DecidableEq, Repr

/-- Lexicographic order on character lists: SQLite binary collation for TEXT
comparison (`<=` of two `YYYY-MM-DD` strings). -/
def charsLe : List Char → List Char → Bool
  | [], _ => true
  | _ :: _, [] => false
  | a :: as, b :: bs => if a < b then true else if b < a then false else charsLe as bs

/-- Boolean `a <= b` for TEXT values, as compared by SQLite. -/
def strLe (a b : String) : Bool :=
  charsLe a.data b.data

/-- Tests that `pat` is an initial segment of `l`. -/
def charsPfx : List Char → List Char → Bool
  | [], _ => true
  | _ :: _, [] => false
  | p :: ps, c :: cs => p = c && charsPfx ps cs

/-- Tests that `pat` occurs contiguously inside `l`. -/
def charsSub : List Char → List Char → Bool
  | pat, [] => pat.isEmpty
  | pat, c :: cs => charsPfx pat (c :: cs) || charsSub pat cs

/-- Tests that the string `pat` occurs as a substring of `s`. -/
def strHasSub (s pat : String) : Bool :=
  charsSub pat.data s.data

/-- Performs `INSERT INTO messages (sender_id, receiver_id, content, timestamp,
is_system_message) VALUES (?, ?, ?, datetime('now'), ?)`, checked against
the schema of `init_db` (database.py): `sender_id INTEGER NOT NULL`, so an
explicit NULL sender violates the NOT NULL constraint and the statement
raises instead of inserting.  The declared foreign keys are not enforced
(SQLite default, no `PRAGMA foreign_keys`), so the receiver need not exist. -/
def messagesInsert (db : DB) (sender : Option Nat) (receiver : Nat)
    (content : String) (isSystem : Bool) : Except String DB :=
  match sender with
  | none => .error ("NOT NULL constraint failed: messages.sender_id")
  | some s =>
      .ok { db with
        messages := db.messages ++
          [⟨db.next_message_id, some s, receiver, content, isSystem⟩],
        next_message_id := db.next_message_id + 1 }

/-- Embeds `send_system_message` (database.py): inserts a message with
`sender_id = NULL` and `is_system_message = 1`; the surrounding
`try/except` catches every exception and only prints it, so the function
always returns normally and leaves the database unchanged when the insert
fails. -/
def send_system_message (db : DB) (receiver_id : Nat) (content : String) : DB :=
  match messagesInsert db none receiver_id content true with
  | .ok db' => db'
  | .error _ => db

/-- Embeds `book_resource` (database.py): a plain `INSERT INTO resource_bookings
(user_id, resource_id, booking_date) VALUES (?, ?, ?)`.  The schema puts no
uniqueness constraint on `(user_id, resource_id)` and foreign keys are not
enforced, so the insert always succeeds (the `sqlite3.IntegrityError` branch
of the Python function is dead) and a fresh AUTOINCREMENT `booking_id` is
assigned. -/
def book_resource (db : DB) (user_id resource_id : Nat) (booking_date : String) : DB :=
  { db with
    resource_bookings := db.resource_bookings ++
      [⟨db.next_resource_booking_id, user_id, resource_id, booking_date⟩],
    next_resource_booking_id := db.next_resource_booking_id + 1 }

/-- Embeds `book_space` (database.py): plain insert into `space_bookings`, same
shape as `book_resource`. -/
def book_space (db : DB) (user_id space_id : Nat) (booking_date : String) : DB :=
  { db with
    space_bookings := db.space_bookings ++
      [⟨db.next_space_booking_id, user_id, space_id, booking_date⟩],
    next_space_booking_id := db.next_space_booking_id + 1 }

/-- Embeds `book_event` (database.py): plain insert into `event_bookings`, same
shape as `book_resource`. -/
def book_event (db : DB) (user_id event_id : Nat) (booking_date : String) : DB :=
  { db with
    event_bookings := db.event_bookings ++
      [⟨db.next_event_booking_id, user_id, event_id, booking_date⟩],
    next_event_booking_id := db.next_event_booking_id + 1 }

/-- Embeds `get_resource_by_id` (database.py): `SELECT * FROM resources WHERE
resource_id = ?` followed by `fetchone()`; `resource_id` is the primary key,
so the first match is the only one. -/
def get_resource_by_id (db : DB) (resource_id : Nat) : Option Resource :=
  db.resources.find? (fun r => r.resource_id = resource_id)

/-- Embeds `get_space_by_id` (database.py). -/
def get_space_by_id (db : DB) (space_id : Nat) : Option Space :=
  db.spaces.find? (fun s => s.space_id = space_id)

/-- Embeds `get_event_by_id` (database.py). -/
def get_event_by_id (db : DB) (event_id : Nat) : Option Event :=
  db.events.find? (fun e => e.event_id = event_id)

/-- Embeds `book_resource_route` (app.py, `/resource/<id>/book`).  Inputs beyond the
database: the session user (`None` when not logged in), the URL's resource
id, and `today`, the value of `datetime.now().strftime('%Y-%m-%d')` — the
route supplies the booking date itself, the client never sends one.  The
result pairs the new database state with the flashed status string.  Control
flow of the source: login check, existence check via `get_resource_by_id`, a
`SELECT 1 FROM resource_bookings WHERE user_id = ? AND resource_id = ?`
duplicate probe, then `book_resource` (whose insert cannot fail, so the
`except` branches are dead). -/
def book_resource_route (db : DB) (session_user : Option Nat)
    (resource_id : Nat) (today : String) : DB × String :=
  match session_user with
  | none => (db, "Please log in to book this resource.")
  | some user_id =>
    match get_resource_by_id db resource_id with
    | none => (db, "Resource not found.")
    | some _ =>
      if db.resource_bookings.any
          (fun rb => rb.user_id = user_id && rb.entity_id = resource_id) then
        (db, "You have already booked this resource.")
      else
        (book_resource db user_id resource_id today, "Resource booked successfully!")

/-- Embeds `book_space_route` (app.py, `/space/<id>/book`), same flow as
`book_resource_route`. -/
def book_space_route (db : DB) (session_user : Option Nat)
    (space_id : Nat) (today : String) : DB × String :=
  match session_user with
  | none => (db, "Please log in to book this space.")
  | some user_id =>
    match get_space_by_id db space_id with
    | none => (db, "Space not found.")
    | some _ =>
      if db.space_bookings.any
          (fun sb => sb.user_id = user_id && sb.entity_id = space_id) then
        (db, "You have already booked this space.")
      else
        (book_space db user_id space_id today, "Space booked successfully!")

/-- Embeds `book_event_route` (app.py, `/event/<id>/book`), same flow as
`book_resource_route`. -/
def book_event_route (db : DB) (session_user : Option Nat)
    (event_id : Nat) (today : String) : DB × String :=
  match session_user with
  | none => (db, "Please log in to book this event.")
  | some user_id =>
    match get_event_by_id db event_id with
    | none => (db, "Event not found.")
    | some _ =>
      if db.event_bookings.any
          (fun eb => eb.user_id = user_id && eb.entity_id = event_id) then
        (db, "You have already booked this event.")
      else
        (book_event db user_id event_id today, "Event booked successfully!")

/-- Embeds `unbook_resource` (app.py, `/resource/unbook/<booking_id>`): after the
login check, `DELETE FROM resource_bookings WHERE booking_id = ? AND
user_id = ?` and an unconditional success flash — the route never inspects
how many rows were deleted and the `except` branch is dead (the delete
cannot raise), so the flash is the same whether the booking was the
caller's, another user's, or absent. -/
def unbook_resource (db : DB) (session_user : Option Nat) (booking_id : Nat) :
    DB × String :=
  match session_user with
  | none => (db, "Please log in to unbook this resource.")
  | some user_id =>
      let kept := db.resource_bookings.filter
        (fun rb => !(rb.booking_id = booking_id && rb.user_id = user_id))
      ({ db with resource_bookings := kept },
       "Resource booking canceled successfully.")

/-- Embeds `unbook_space` (app.py, `/space/unbook/<booking_id>`), same flow. -/
def unbook_space (db : DB) (session_user : Option Nat) (booking_id : Nat) :
    DB × String :=
  match session_user with
  | none => (db, "Please log in to unbook this space.")
  | some user_id =>
      let kept := db.space_bookings.filter
        (fun sb => !(sb.booking_id = booking_id && sb.user_id = user_id))
      ({ db with space_bookings := kept },
       "Space booking canceled successfully.")

/-- Embeds `unbook_event` (app.py, `/event/unbook/<booking_id>`), same flow. -/
def unbook_event (db : DB) (session_user : Option Nat) (booking_id : Nat) :
    DB × String :=
  match session_user with
  | none => (db, "Please log in to unbook this event.")
  | some user_id =>
      let kept := db.event_bookings.filter
        (fun eb => !(eb.booking_id = booking_id && eb.user_id = user_id))
      ({ db with event_bookings := kept },
       "Event booking canceled successfully.")

/-- Embeds `get_resource_bookings_by_user` (database.py): `SELECT rb.*, r.title
FROM resource_bookings rb JOIN resources r ON rb.resource_id = r.resource_id
WHERE rb.user_id = ?`.  No ORDER BY: rows come out in the scan order of
`resource_bookings` (rowid order); joining on the primary key yields at most
one `resources` row per booking, and a booking whose resource row is gone is
dropped (inner join). -/
def get_resource_bookings_by_user (db : DB) (user_id : Nat) :
    List (Booking × String) :=
  db.resource_bookings.filterMap (fun rb =>
    if rb.user_id = user_id then
      (get_resource_by_id db rb.entity_id).map (fun r => (rb, r.title))
    else none)

/-- Embeds `get_space_bookings_by_user` (database.py): same query shape over
`space_bookings` joined with `spaces`, selecting `s.name`. -/
def get_space_bookings_by_user (db : DB) (user_id : Nat) :
    List (Booking × String) :=
  db.space_bookings.filterMap (fun sb =>
    if sb.user_id = user_id then
      (get_space_by_id db sb.entity_id).map (fun s => (sb, s.name))
    else none)

/-- Embeds `get_event_bookings_by_user` (database.py): same query shape over
`event_bookings` joined with `events`, selecting `e.name`. -/
def get_event_bookings_by_user (db : DB) (user_id : Nat) :
    List (Booking × String) :=
  db.event_bookings.filterMap (fun eb =>
    if eb.user_id = user_id then
      (get_event_by_id db eb.entity_id).map (fun e => (eb, e.name))
    else none)

/-- Reminder text for a resource booking in `check_upcoming_bookings`
(app.py): names the resource title but a fixed "tomorrow", not the date. -/
def appResourceContent (title : String) : String :=
  "Reminder: Your resource booking \x27" ++ title ++ "\x27 is scheduled for tomorrow."

/-- Reminder text for a space booking in `check_upcoming_bookings` (app.py). -/
def appSpaceContent (name : String) : String :=
  "Reminder: Your space booking \x27" ++ name ++ "\x27 is scheduled for tomorrow."

/-- Reminder text for an event booking in `check_upcoming_bookings` (app.py). -/
def appEventContent (name : String) : String :=
  "Reminder: Your event \x27" ++ name ++ "\x27 is scheduled for tomorrow."

/-- The resource query of `check_upcoming_bookings` (app.py): `SELECT
rb.user_id, r.title, rb.booking_date FROM resource_bookings rb JOIN
resources r ON rb.resource_id = r.resource_id WHERE rb.booking_date = ?`
with the parameter `upcoming_date = (now + 1 day)` formatted `%Y-%m-%d`,
each row turned into the `send_system_message` call the loop body makes:
the predicate reads the booking row's stored `booking_date`; the `resources`
row contributes only `title`. -/
def appResourceCalls (db : DB) (upcoming_date : String) : List (Nat × String) :=
  db.resource_bookings.filterMap (fun rb =>
    if rb.booking_date = upcoming_date then
      (get_resource_by_id db rb.entity_id).map
        (fun r => (rb.user_id, appResourceContent r.title))
    else none)

/-- The space query of `check_upcoming_bookings` (app.py):
`WHERE sb.booking_date = ?` against the stored booking date. -/
def appSpaceCalls (db : DB) (upcoming_date : String) : List (Nat × String) :=
  db.space_bookings.filterMap (fun sb =>
    if sb.booking_date = upcoming_date then
      (get_space_by_id db sb.entity_id).map
        (fun s => (sb.user_id, appSpaceContent s.name))
    else none)

/-- The event query of `check_upcoming_bookings` (app.py): `SELECT
eb.user_id, e.name, e.date FROM event_bookings eb JOIN events e ON
eb.event_id = e.event_id WHERE e.date = ?` — the predicate reads the
event row's current `date`, not the stored booking date. -/
def appEventCalls (db : DB) (upcoming_date : String) : List (Nat × String) :=
  db.event_bookings.filterMap (fun eb =>
    (get_event_by_id db eb.entity_id).bind (fun e =>
      if e.date = upcoming_date then
        some (eb.user_id, appEventContent e.name)
      else none))

/-- Performs a list of `send_system_message` calls in order. -/
def sendCalls (db : DB) : List (Nat × String) → DB
  | [] => db
  | (r, c) :: rest => sendCalls (send_system_message db r c) rest

/-- Embeds `check_upcoming_bookings` (app.py, lines 874-919): the scan the
30-second `BackgroundScheduler` job actually runs (this definition shadows
the one imported from database.py).  The source computes `upcoming_date =
(datetime.now() + timedelta(days=1)).strftime('%Y-%m-%d')`; that formatted
string is the parameter here.  It runs the three queries in order, calling
`send_system_message` for every row of each; there is no sent-marker, no
table recording past reminders, and nothing else is written.  The result
pairs the final database state with the sequence of `(receiver, content)`
arguments passed to `send_system_message`, in call order.  Each query is
evaluated against the state left by the previous kind's sends, exactly as
the source interleaves them. -/
def app_check_upcoming_bookings (db : DB) (upcoming_date : String) :
    DB × List (Nat × String) :=
  let resCalls := appResourceCalls db upcoming_date
  let db1 := sendCalls db resCalls
  let spaceCalls := appSpaceCalls db1 upcoming_date
  let db2 := sendCalls db1 spaceCalls
  let eventCalls := appEventCalls db2 upcoming_date
  let db3 := sendCalls db2 eventCalls
  (db3, resCalls ++ spaceCalls ++ eventCalls)

/-- Reminder text for a resource booking in `check_upcoming_bookings`
(database.py): names the title and the stored booking date. -/
def dbResourceContent (title date : String) : String :=
  "Reminder: Your resource booking \x27" ++ title ++ "\x27 is scheduled for "
    ++ date ++ "."

/-- Reminder text for a space booking in `check_upcoming_bookings`
(database.py). -/
def dbSpaceContent (name date : String) : String :=
  "Reminder: Your space booking \x27" ++ name ++ "\x27 is scheduled for "
    ++ date ++ "."

/-- Reminder text for an event booking in `check_upcoming_bookings`
(database.py). -/
def dbEventContent (name date : String) : String :=
  "Reminder: Your event \x27" ++ name ++ "\x27 is scheduled for " ++ date ++ "."

/-- The resource query of `check_upcoming_bookings` (database.py):
`WHERE rb.booking_date >= ?` with parameter `current_date =
datetime.now().strftime('%Y-%m-%d')` (TEXT comparison, binary collation). -/
def dbResourceCalls (db : DB) (current_date : String) : List (Nat × String) :=
  db.resource_bookings.filterMap (fun rb =>
    if strLe current_date rb.booking_date then
      (get_resource_by_id db rb.entity_id).map
        (fun r => (rb.user_id, dbResourceContent r.title rb.booking_date))
    else none)

/-- The space query of `check_upcoming_bookings` (database.py):
`WHERE sb.booking_date >= ?`. -/
def dbSpaceCalls (db : DB) (current_date : String) : List (Nat × String) :=
  db.space_bookings.filterMap (fun sb =>
    if strLe current_date sb.booking_date then
      (get_space_by_id db sb.entity_id).map
        (fun s => (sb.user_id, dbSpaceContent s.name sb.booking_date))
    else none)

/-- The event query of `check_upcoming_bookings` (database.py):
`WHERE e.date >= ?` against the event row's current date. -/
def dbEventCalls (db : DB) (current_date : String) : List (Nat × String) :=
  db.event_bookings.filterMap (fun eb =>
    (get_event_by_id db eb.entity_id).bind (fun e =>
      if strLe current_date e.date then
        some (eb.user_id, dbEventContent e.name e.date)
      else none))

/-- Embeds `check_upcoming_bookings` (database.py, lines 400-458): selects every
booking whose relevant date is on or after `current_date` and includes that
date in the message text.  Its `try/except` re-raises only if a query
itself fails; `send_system_message` swallows its own errors, so the scan
runs to completion.  Same result convention as
`app_check_upcoming_bookings`. -/
def db_check_upcoming_bookings (db : DB) (current_date : String) :
    DB × List (Nat × String) :=
  let resCalls := dbResourceCalls db current_date
  let db1 := sendCalls db resCalls
  let spaceCalls := dbSpaceCalls db1 current_date
  let db2 := sendCalls db1 spaceCalls
  let eventCalls := dbEventCalls db2 current_date
  let db3 := sendCalls db2 eventCalls
  (db3, resCalls ++ spaceCalls ++ eventCalls)

/-- Rewrites every resource availability through `f` and every space
availability through `g`, leaving ids, titles, names, owners and all booking
rows untouched.  Used to state which fields the reminder scan reads: a
function invariant under `setAvailability` provably never consults the
availability ("governing date") fields the spec points at. -/
def setAvailability (f g : String → String) (db : DB) : DB :=
  { db with
    resources := db.resources.map (fun r => { r with availability := f r.availability }),
    spaces := db.spaces.map (fun s => { s with availability := g s.availability }) }

/-- Rewrites the stored `booking_date` of every event booking through `h`,
leaving everything else untouched.  A function invariant under it never
consults the stored dates of event bookings. -/
def setEventBookingDates (h : String → String) (db : DB) : DB :=
  { db with
    event_bookings := db.event_bookings.map (fun eb => { eb with booking_date := h eb.booking_date }) }

/-- Well-formedness of the three booking tables: rows sit in strictly
increasing `booking_id` order and every id is below the table's next
AUTOINCREMENT value.  This is the invariant SQLite's AUTOINCREMENT gives
reachable databases; it holds of the empty database and is preserved by the
insert operations (`WF_book_resource` and friends below). -/
def WF (db : DB) : Prop :=
  (db.resource_bookings.Pairwise fun a b => a.booking_id < b.booking_id) ∧
  (∀ rb ∈ db.resource_bookings, rb.booking_id < db.next_resource_booking_id) ∧
  (db.space_bookings.Pairwise fun a b => a.booking_id < b.booking_id) ∧
  (∀ sb ∈ db.space_bookings, sb.booking_id < db.next_space_booking_id) ∧
  (db.event_bookings.Pairwise fun a b => a.booking_id < b.booking_id) ∧
  (∀ eb ∈ db.event_bookings, eb.booking_id < db.next_event_booking_id)

/-- A small concrete database used to evaluate the claims: three users, one
resource with availability 2024-12-01, one space with availability
2024-12-05, one event on 2024-11-10, and one booking of each kind by
user 1.  The stored booking dates are the values the booking routes record:
the resource and space bookings were made on 2024-11-10, the event booking
on 2024-11-05. -/
def dbFull : DB :=
  { users := [⟨1, "Alice"⟩, ⟨2, "Bob"⟩, ⟨3, "Carol"⟩]
    resources := [⟨7, 2, "Lawn Mower", "2024-12-01"⟩]
    spaces := [⟨4, "Community Hall", "2024-12-05", 2⟩]
    events := [⟨3, "Neighborhood Cleanup", "2024-11-10", 2⟩]
    resource_bookings := [⟨1, 1, 7, "2024-11-10"⟩]
    space_bookings := [⟨1, 1, 4, "2024-11-10"⟩]
    event_bookings := [⟨1, 1, 3, "2024-11-05"⟩]
    messages := []
    next_resource_booking_id := 2
    next_space_booking_id := 2
    next_event_booking_id := 2
    next_message_id := 1 }

/-- C4: For every call to send_system_message with an existing receiver,
exactly one message record is created and persisted in the receiver's inbox,
with no sender identity and the system flag set.  The code is wrong: the
insert always supplies NULL for `sender_id`, a column the schema declares
`NOT NULL`, so the insert always fails; the exception is swallowed and the
database (in particular the `messages` table) is left completely unchanged —
zero messages are persisted, never one. -/
theorem c4_send_system_message_persists_nothing :
    ∀ (db : DB) (receiver : Nat) (content : String),
      send_system_message db receiver content = db := by
  intro db receiver content
  rfl

/-- Helper: the NULL-sender insert always violates the NOT NULL constraint,
so a single send never changes the database. -/
theorem send_system_message_fixed (db : DB) (r : Nat) (c : String) :
    send_system_message db r c = db :=
  rfl

/-- Helper: a whole sequence of reminder sends never changes the database. -/
theorem sendCalls_fixed (l : List (Nat × String)) (db : DB) :
    sendCalls db l = db := by
  induction l generalizing db with
  | nil => rfl
  | cons p rest ih => cases p; simpa [sendCalls, send_system_message_fixed] using ih _

/-- Helper: the app.py scan returns the database it was given. -/
theorem app_check_state_fixed (db : DB) (ud : String) :
    (app_check_upcoming_bookings db ud).1 = db := by
  simp [app_check_upcoming_bookings, sendCalls_fixed]

/-- Helper: the calls made by the app.py scan are the three queries
evaluated against the initial database (the interleaved sends change
nothing). -/
theorem app_check_calls_eq (db : DB) (ud : String) :
    (app_check_upcoming_bookings db ud).2 =
      appResourceCalls db ud ++ appSpaceCalls db ud ++ appEventCalls db ud := by
  simp [app_check_upcoming_bookings, sendCalls_fixed]

/-- Helper: the database.py scan returns the database it was given. -/
theorem db_check_state_fixed (db : DB) (cd : String) :
    (db_check_upcoming_bookings db cd).1 = db := by
  simp [db_check_upcoming_bookings, sendCalls_fixed]

/-- Helper: `book_resource` preserves the AUTOINCREMENT invariant. -/
theorem WF_book_resource (db : DB) (u r : Nat) (d : String) (h : WF db) :
    WF (book_resource db u r d) := by
  obtain ⟨p1, b1, p2, b2, p3, b3⟩ := h
  refine ⟨?_, ?_, p2, b2, p3, b3⟩
  · rw [book_resource, List.pairwise_append]
    exact ⟨p1, by simp, by intro a ha b hb; simp at hb; subst hb; exact b1 a ha⟩
  · intro rb hrb
    rw [book_resource] at hrb
    rcases List.mem_append.mp hrb with hold | hnew
    · exact Nat.lt_succ_of_lt (b1 rb hold)
    · simp at hnew; subst hnew; exact Nat.lt_succ_self _

/-- Helper: `book_space` preserves the AUTOINCREMENT invariant. -/
theorem WF_book_space (db : DB) (u s : Nat) (d : String) (h : WF db) :
    WF (book_space db u s d) := by
  obtain ⟨p1, b1, p2, b2, p3, b3⟩ := h
  refine ⟨p1, b1, ?_, ?_, p3, b3⟩
  · rw [book_space, List.pairwise_append]
    exact ⟨p2, by simp, by intro a ha b hb; simp at hb; subst hb; exact b2 a ha⟩
  · intro sb hsb
    rw [book_space] at hsb
    rcases List.mem_append.mp hsb with hold | hnew
    · exact Nat.lt_succ_of_lt (b2 sb hold)
    · simp at hnew; subst hnew; exact Nat.lt_succ_self _

/-- Helper: `book_event` preserves the AUTOINCREMENT invariant. -/
theorem WF_book_event (db : DB) (u e : Nat) (d : String) (h : WF db) :
    WF (book_event db u e d) := by
  obtain ⟨p1, b1, p2, b2, p3, b3⟩ := h
  refine ⟨p1, b1, p2, b2, ?_, ?_⟩
  · rw [book_event, List.pairwise_append]
    exact ⟨p3, by simp, by intro a ha b hb; simp at hb; subst hb; exact b3 a ha⟩
  · intro eb heb
    rw [book_event] at heb
    rcases List.mem_append.mp heb with hold | hnew
    · exact Nat.lt_succ_of_lt (b3 eb hold)
    · simp at hnew; subst hnew; exact Nat.lt_succ_self _

/-- Helper: a user-booking join keeps the row order of the booking table, so
strictly increasing booking ids stay strictly increasing. -/
theorem join_pairwise {α : Type} (l : List Booking) (u : Nat)
    (fnd : Nat → Option α) (proj : α → String)
    (hl : l.Pairwise fun a b => a.booking_id < b.booking_id) :
    (l.filterMap (fun b =>
        if b.user_id = u then (fnd b.entity_id).map (fun r => (b, proj r)) else none)).Pairwise
      (fun p q => p.1.booking_id < q.1.booking_id) := by
  refine List.Pairwise.filterMap _ ?_ hl
  intro a b hab x hx y hy
  rw [Option.mem_def] at hx hy
  have hxa : x.1 = a := by
    split at hx
    · obtain ⟨r, -, hr⟩ := Option.map_eq_some'.mp hx
      rw [← hr]
    · cases hx
  have hyb : y.1 = b := by
    split at hy
    · obtain ⟨r, -, hr⟩ := Option.map_eq_some'.mp hy
      rw [← hr]
    · cases hy
  rw [hxa, hyb]
  exact hab

/-- Helper: characterizes membership in a user-booking join: exactly the
rows of the booking table belonging to the user whose entity is still in
the catalog, paired with the joined display field. -/
theorem join_mem_iff {α : Type} (l : List Booking) (u : Nat)
    (fnd : Nat → Option α) (proj : α → String) (rb : Booking) (t : String) :
    (rb, t) ∈ l.filterMap (fun b =>
        if b.user_id = u then (fnd b.entity_id).map (fun r => (b, proj r)) else none) ↔
      rb.user_id = u ∧ rb ∈ l ∧ (fnd rb.entity_id).map proj = some t := by
  rw [List.mem_filterMap]
  constructor
  · rintro ⟨b, hmem, heq⟩
    split at heq
    · rename_i hu
      obtain ⟨r, hr, hpair⟩ := Option.map_eq_some'.mp heq
      obtain ⟨h1, h2⟩ := Prod.mk.injEq .. ▸ hpair
      subst h1; subst h2
      exact ⟨hu, hmem, by rw [hr]; rfl⟩
    · cases heq
  · rintro ⟨hu, hmem, hmap⟩
    obtain ⟨r, hr, ht⟩ := Option.map_eq_some'.mp hmap
    exact ⟨rb, hmem, by rw [if_pos hu, hr]; simp [ht]⟩

/-- Helper: the resource query of the app.py scan never reads availability
fields or stored event-booking dates. -/
theorem appResourceCalls_invariant (db : DB) (ud : String) (f g h : String → String) :
    appResourceCalls (setEventBookingDates h (setAvailability f g db)) ud =
      appResourceCalls db ud := by
  simp only [appResourceCalls, setEventBookingDates, setAvailability, get_resource_by_id,
    List.find?_map]
  apply List.filterMap_congr
  intro rb _
  rcases Decidable.em (rb.booking_date = ud) with hd | hd
  · rw [if_pos hd, if_pos hd, Option.map_map]
    rfl
  · rw [if_neg hd, if_neg hd]

/-- Helper: the space query of the app.py scan never reads availability
fields or stored event-booking dates. -/
theorem appSpaceCalls_invariant (db : DB) (ud : String) (f g h : String → String) :
    appSpaceCalls (setEventBookingDates h (setAvailability f g db)) ud =
      appSpaceCalls db ud := by
  simp only [appSpaceCalls, setEventBookingDates, setAvailability, get_space_by_id,
    List.find?_map]
  apply List.filterMap_congr
  intro sb _
  rcases Decidable.em (sb.booking_date = ud) with hd | hd
  · rw [if_pos hd, if_pos hd, Option.map_map]
    rfl
  · rw [if_neg hd, if_neg hd]

/-- Helper: the event query of the app.py scan reads the event rows (their
current `date` field), never availability fields or the stored dates of the
event bookings themselves. -/
theorem appEventCalls_invariant (db : DB) (ud : String) (f g h : String → String) :
    appEventCalls (setEventBookingDates h (setAvailability f g db)) ud =
      appEventCalls db ud := by
  simp only [appEventCalls, setEventBookingDates, setAvailability, get_event_by_id,
    List.filterMap_map]
  rfl

/-- C1: For every booking and governing-date value, at most one reminder
message should ever be created, and concretely exactly one per due booking
per scan epoch.  The code diverges: evaluated on `dbFull` (three due
bookings) with the scheduler tick for 2024-11-09 (`upcoming_date`
2024-11-10), one scan makes three send attempts, but zero messages are
persisted on the first tick and zero on the second — every attempt dies on
the `sender_id NOT NULL` constraint — and the second tick repeats exactly
the same three attempts, because no sent-marker of any kind is recorded
(the scan writes nothing at all).  So instead of "exactly one message, then
silence", the code gives "no message ever, identical attempts every
30-second tick". -/
theorem c1_scan_persists_nothing_and_repeats_attempts :
    (app_check_upcoming_bookings dbFull ("2024-11-10")).2.length = 3 ∧
    (app_check_upcoming_bookings
        (app_check_upcoming_bookings dbFull ("2024-11-10")).1 ("2024-11-10")).2 =
      (app_check_upcoming_bookings dbFull ("2024-11-10")).2 ∧
    (app_check_upcoming_bookings
        (app_check_upcoming_bookings dbFull ("2024-11-10")).1 ("2024-11-10")).1.messages = [] := by
  decide

/-- C7: In the spec scenario (resource "Lawn Mower" due on 2024-11-10,
tick at 2024-11-09) exactly one system message containing the title and the
string 2024-11-10 should reach user 1.  The code diverges twice: the scan
persists no message at all (the emitter always fails its NOT NULL check),
and even the content it attempts to send, while naming the title, says
"tomorrow" and never contains the governing date. -/
theorem c7_reminder_scenario_produces_no_dated_message :
    (app_check_upcoming_bookings dbFull ("2024-11-10")).1.messages = [] ∧
    (app_check_upcoming_bookings dbFull ("2024-11-10")).2.head? =
      some (1, appResourceContent ("Lawn Mower")) ∧
    strHasSub (appResourceContent ("Lawn Mower")) ("Lawn Mower") = true ∧
    strHasSub (appResourceContent ("Lawn Mower")) ("2024-11-10") = false := by
  decide

/-- C2 counterexample: the claim says uniqueness of (user, kind, entity) is
enforced by the booking store atomically with the insert.  It is not: the
schema has no unique constraint, so calling the store operation
`book_resource` for a (user, resource) pair that is already booked inserts
a second row — afterwards two rows with user 1 and resource 7 exist, and no
duplicate error is reported. -/
theorem c2_store_insert_accepts_duplicate_triple :
    ((book_resource dbFull 1 7 ("2024-11-12")).resource_bookings.filter
        (fun rb => rb.user_id = 1 && rb.entity_id = 7)).length = 2 := by
  decide

/-- C2 amended: duplicate prevention lives in the routes, not the store: a
second booking call through the web route for the same (user, kind, entity)
triple is rejected by the select-then-insert probe with an already-booked
notice and leaves the database unchanged, for each of the three kinds. -/
theorem c2_route_rejects_duplicate (db : DB) (u rid sid eid : Nat) (today : String)
    (hr : (get_resource_by_id db rid).isSome = true)
    (hra : db.resource_bookings.any (fun rb => rb.user_id = u && rb.entity_id = rid) = true)
    (hs : (get_space_by_id db sid).isSome = true)
    (hsa : db.space_bookings.any (fun sb => sb.user_id = u && sb.entity_id = sid) = true)
    (he : (get_event_by_id db eid).isSome = true)
    (hea : db.event_bookings.any (fun eb => eb.user_id = u && eb.entity_id = eid) = true) :
    book_resource_route db (some u) rid today =
      (db, "You have already booked this resource.") ∧
    book_space_route db (some u) sid today =
      (db, "You have already booked this space.") ∧
    book_event_route db (some u) eid today =
      (db, "You have already booked this event.") := by
  obtain ⟨r, hr2⟩ := Option.isSome_iff_exists.mp hr
  obtain ⟨s, hs2⟩ := Option.isSome_iff_exists.mp hs
  obtain ⟨e, he2⟩ := Option.isSome_iff_exists.mp he
  refine ⟨?_, ?_, ?_⟩
  · simp [book_resource_route, hr2, hra]
  · simp [book_space_route, hs2, hsa]
  · simp [book_event_route, he2, hea]

/-- C2 witness: in `dbFull`, user 1 already booked resource 7, space 4 and
event 3; a second route call of each kind is rejected and changes nothing. -/
theorem c2_route_rejects_duplicate_witness :
    book_resource_route dbFull (some 1) 7 ("2024-11-12") =
      (dbFull, "You have already booked this resource.") ∧
    book_space_route dbFull (some 1) 4 ("2024-11-12") =
      (dbFull, "You have already booked this space.") ∧
    book_event_route dbFull (some 1) 3 ("2024-11-12") =
      (dbFull, "You have already booked this event.") :=
  c2_route_rejects_duplicate dbFull 1 7 4 3 ("2024-11-12") (by decide) (by decide)
    (by decide) (by decide) (by decide) (by decide)

/-- C3 counterexample: the claim says resource and space due-ness is decided
by the entity's current availability field read at scan time.  In `dbFull`
no resource or space has availability 2024-11-10, yet the scan for
2024-11-10 attempts a reminder for the resource booking and one for the
space booking — due-ness followed the stored `booking_date` of the booking
rows, not the availability fields. -/
theorem c3_scan_fires_despite_availability_mismatch :
    (1, appResourceContent ("Lawn Mower")) ∈
      (app_check_upcoming_bookings dbFull ("2024-11-10")).2 ∧
    (1, appSpaceContent ("Community Hall")) ∈
      (app_check_upcoming_bookings dbFull ("2024-11-10")).2 ∧
    dbFull.resources.all (fun r => !(r.availability = "2024-11-10")) = true ∧
    dbFull.spaces.all (fun s => !(s.availability = "2024-11-10")) = true := by
  decide

/-- C3 amended: the reminder scan selects resource and space bookings by the
stored `booking_date` of the booking row (the creation date), never reading
the entity's availability field — its output is invariant under arbitrary
rewriting of every resource and space availability — and selects event
bookings by the event row's current `date` field, never reading the stored
event-booking date — its output is likewise invariant under arbitrary
rewriting of the stored dates of event bookings. -/
theorem c3_scan_reads_stored_dates_not_availability
    (ud : String) (db : DB) (f g h : String → String) :
    (app_check_upcoming_bookings (setEventBookingDates h (setAvailability f g db)) ud).2 =
      (app_check_upcoming_bookings db ud).2 := by
  rw [app_check_calls_eq, app_check_calls_eq, appResourceCalls_invariant,
    appSpaceCalls_invariant, appEventCalls_invariant]

/-- C5 counterexample: the claim says a cancellation attempt by a non-owner
reports failure.  It does not: in `dbFull` booking 1 belongs to user 1, yet
when user 3 posts the unbook route for it the booking survives (the
database is unchanged) and the route flashes the very same success message
an owner would get. -/
theorem c5_nonowner_cancellation_reports_success :
    unbook_resource dbFull (some 3) 1 =
      (dbFull, "Resource booking canceled successfully.") := by
  decide

/-- C5 amended: the unbook routes delete a booking only when it belongs to
the calling user — every row not matching (booking id, caller) survives,
and every surviving-list row comes from the old table and is not the
caller's targeted booking — but the response is the same constant success
message in every case, never a failure report; as the message is
independent of the database it reveals nothing about bookings under other
owners. -/
theorem c5_cancel_deletes_only_callers_booking (db : DB) (u b : Nat) :
    ((unbook_resource db (some u) b).2 = "Resource booking canceled successfully." ∧
      (∀ rb ∈ db.resource_bookings, ¬(rb.booking_id = b ∧ rb.user_id = u) →
        rb ∈ (unbook_resource db (some u) b).1.resource_bookings) ∧
      (∀ rb ∈ (unbook_resource db (some u) b).1.resource_bookings,
        rb ∈ db.resource_bookings ∧ ¬(rb.booking_id = b ∧ rb.user_id = u))) ∧
    ((unbook_space db (some u) b).2 = "Space booking canceled successfully." ∧
      (∀ sb ∈ db.space_bookings, ¬(sb.booking_id = b ∧ sb.user_id = u) →
        sb ∈ (unbook_space db (some u) b).1.space_bookings) ∧
      (∀ sb ∈ (unbook_space db (some u) b).1.space_bookings,
        sb ∈ db.space_bookings ∧ ¬(sb.booking_id = b ∧ sb.user_id = u))) ∧
    ((unbook_event db (some u) b).2 = "Event booking canceled successfully." ∧
      (∀ eb ∈ db.event_bookings, ¬(eb.booking_id = b ∧ eb.user_id = u) →
        eb ∈ (unbook_event db (some u) b).1.event_bookings) ∧
      (∀ eb ∈ (unbook_event db (some u) b).1.event_bookings,
        eb ∈ db.event_bookings ∧ ¬(eb.booking_id = b ∧ eb.user_id = u))) := by
  refine ⟨⟨rfl, ?_, ?_⟩, ⟨rfl, ?_, ?_⟩, ⟨rfl, ?_, ?_⟩⟩ <;>
    intro x hx <;>
    simp [unbook_resource, unbook_space, unbook_event, List.mem_filter,
      Decidable.not_and_iff_or_not] at * <;>
    tauto

/-- C5 witness: user 1 unbooks the nonexistent booking 99; the route reports
success anyway and the real booking of user 1 survives. -/
theorem c5_cancel_deletes_only_callers_booking_witness :
    (unbook_resource dbFull (some 1) 99).2 = "Resource booking canceled successfully." ∧
    (⟨1, 1, 7, "2024-11-10"⟩ : Booking) ∈
      (unbook_resource dbFull (some 1) 99).1.resource_bookings :=
  ⟨(c5_cancel_deletes_only_callers_booking dbFull 1 99).1.1,
   (c5_cancel_deletes_only_callers_booking dbFull 1 99).1.2.1
     ⟨1, 1, 7, "2024-11-10"⟩ (by decide) (by decide)⟩

/-- C6: a failure writing one reminder fails only that item and the scan
still attempts every other due booking of every kind in the same tick
without propagating the error.  Confirmed, in the strongest form the code
exhibits: every individual send fails (the emitter swallows its error, the
first conjunct shows nothing was written), yet the scan terminates normally
and its attempt log contains an entry for every due resource booking, every
due space booking and every due event booking. -/
theorem c6_scan_attempts_every_due_booking (db : DB) (ud : String) :
    (app_check_upcoming_bookings db ud).1 = db ∧
    (∀ rb ∈ db.resource_bookings, rb.booking_date = ud →
      ∀ r, get_resource_by_id db rb.entity_id = some r →
        (rb.user_id, appResourceContent r.title) ∈ (app_check_upcoming_bookings db ud).2) ∧
    (∀ sb ∈ db.space_bookings, sb.booking_date = ud →
      ∀ s, get_space_by_id db sb.entity_id = some s →
        (sb.user_id, appSpaceContent s.name) ∈ (app_check_upcoming_bookings db ud).2) ∧
    (∀ eb ∈ db.event_bookings, ∀ e, get_event_by_id db eb.entity_id = some e →
      e.date = ud →
        (eb.user_id, appEventContent e.name) ∈ (app_check_upcoming_bookings db ud).2) := by
  refine ⟨app_check_state_fixed db ud, ?_, ?_, ?_⟩
  · intro rb hmem hd r hr
    rw [app_check_calls_eq]
    refine List.mem_append_left _ (List.mem_append_left _ ?_)
    exact List.mem_filterMap.mpr ⟨rb, hmem, by simp [hd, hr]⟩
  · intro sb hmem hd s hs
    rw [app_check_calls_eq]
    refine List.mem_append_left _ (List.mem_append_right _ ?_)
    exact List.mem_filterMap.mpr ⟨sb, hmem, by simp [hd, hs]⟩
  · intro eb hmem e he hd
    rw [app_check_calls_eq]
    refine List.mem_append_right _ ?_
    exact List.mem_filterMap.mpr ⟨eb, hmem, by simp [he, hd]⟩

/-- C6 witness: on `dbFull` with the 2024-11-10 tick, all three due
bookings appear in the attempt log even though every send failed (the
database is returned unchanged). -/
theorem c6_scan_attempts_every_due_booking_witness :
    (app_check_upcoming_bookings dbFull ("2024-11-10")).1 = dbFull ∧
    (1, appResourceContent ("Lawn Mower")) ∈
      (app_check_upcoming_bookings dbFull ("2024-11-10")).2 ∧
    (1, appEventContent ("Neighborhood Cleanup")) ∈
      (app_check_upcoming_bookings dbFull ("2024-11-10")).2 :=
  ⟨(c6_scan_attempts_every_due_booking dbFull ("2024-11-10")).1,
   (c6_scan_attempts_every_due_booking dbFull ("2024-11-10")).2.1
     ⟨1, 1, 7, "2024-11-10"⟩ (by decide) (by decide)
     ⟨7, 2, "Lawn Mower", "2024-12-01"⟩ (by decide),
   (c6_scan_attempts_every_due_booking dbFull ("2024-11-10")).2.2.2
     ⟨1, 1, 3, "2024-11-05"⟩ (by decide)
     ⟨3, "Neighborhood Cleanup", "2024-11-10", 2⟩ (by decide) (by decide)⟩

/-- C8: for every user and each kind independently, the listing returns the
user's bookings joined with the entity's display field, ordered by booking
identifier ascending.  Confirmed under the AUTOINCREMENT invariant `WF`
(ids strictly increase along each table, which the insert operations
preserve): the three queries keep table order, so results are strictly
ascending in booking id, and a pair is returned exactly when the booking
row belongs to the user and its entity still exists, joined with that
entity's title or name. -/
theorem c8_list_bookings_sorted_and_joined (db : DB) (u : Nat) (h : WF db) :
    ((get_resource_bookings_by_user db u).Pairwise
        fun p q => p.1.booking_id < q.1.booking_id) ∧
    ((get_space_bookings_by_user db u).Pairwise
        fun p q => p.1.booking_id < q.1.booking_id) ∧
    ((get_event_bookings_by_user db u).Pairwise
        fun p q => p.1.booking_id < q.1.booking_id) ∧
    (∀ rb t, (rb, t) ∈ get_resource_bookings_by_user db u ↔
      rb.user_id = u ∧ rb ∈ db.resource_bookings ∧
        (get_resource_by_id db rb.entity_id).map Resource.title = some t) ∧
    (∀ sb t, (sb, t) ∈ get_space_bookings_by_user db u ↔
      sb.user_id = u ∧ sb ∈ db.space_bookings ∧
        (get_space_by_id db sb.entity_id).map Space.name = some t) ∧
    (∀ eb t, (eb, t) ∈ get_event_bookings_by_user db u ↔
      eb.user_id = u ∧ eb ∈ db.event_bookings ∧
        (get_event_by_id db eb.entity_id).map Event.name = some t) := by
  obtain ⟨p1, -, p2, -, p3, -⟩ := h
  exact ⟨join_pairwise _ u (get_resource_by_id db) Resource.title p1,
    join_pairwise _ u (get_space_by_id db) Space.name p2,
    join_pairwise _ u (get_event_by_id db) Event.name p3,
    fun rb t => join_mem_iff _ u (get_resource_by_id db) Resource.title rb t,
    fun sb t => join_mem_iff _ u (get_space_by_id db) Space.name sb t,
    fun eb t => join_mem_iff _ u (get_event_by_id db) Event.name eb t⟩

/-- C8 witness: `dbFull` satisfies the invariant, and the listings of user 1
come out sorted by booking id for all three kinds. -/
theorem c8_list_bookings_sorted_and_joined_witness :
    ((get_resource_bookings_by_user dbFull 1).Pairwise
        fun p q => p.1.booking_id < q.1.booking_id) ∧
    ((get_space_bookings_by_user dbFull 1).Pairwise
        fun p q => p.1.booking_id < q.1.booking_id) ∧
    ((get_event_bookings_by_user dbFull 1).Pairwise
        fun p q => p.1.booking_id < q.1.booking_id) :=
  ⟨(c8_list_bookings_sorted_and_joined dbFull 1 (by unfold WF; decide)).1,
   (c8_list_bookings_sorted_and_joined dbFull 1 (by unfold WF; decide)).2.1,
   (c8_list_bookings_sorted_and_joined dbFull 1 (by unfold WF; decide)).2.2.1⟩

/-- C9 counterexample: the two scan implementations do not produce the same
reminder messages for every state and date.  On `dbFull` with as-of date
2024-11-10, the database.py scan runs with current date 2024-11-10; its
"date on or after today" predicate matches the bookings dated 2024-11-10,
so it attempts reminders.  The app.py scan for the same as-of date runs
with upcoming date 2024-11-11; its exact-day predicate matches nothing, so
it attempts none.  Different receivers and contents, refuting the claimed
equivalence. -/
theorem c9_two_scans_attempt_different_reminders :
    (db_check_upcoming_bookings dbFull ("2024-11-10")).2 ≠ [] ∧
    (app_check_upcoming_bookings dbFull ("2024-11-11")).2 = [] := by
  decide

/-- C9 amended: the two implementations differ in which reminders they
attempt (all-upcoming with the date in the text versus exact-next-day with
a fixed "tomorrow" text); they coincide only in the messages they actually
persist, and only vacuously so: every send fails the sender NOT NULL
constraint, so both scans leave the database — in particular the message
table — unchanged for every state and every date. -/
theorem c9_both_scans_leave_database_unchanged (db : DB) (cd ud : String) :
    (db_check_upcoming_bookings db cd).1 = db ∧
    (app_check_upcoming_bookings db ud).1 = db :=
  ⟨db_check_state_fixed db cd, app_check_state_fixed db ud⟩

/-- C10: every booking row created through the three public booking routes
carries `booking_date` equal to the current date at the moment of booking:
the routes compute the date themselves from the clock (the client supplies
none), so after any route call every booking row either predates the call
or is stamped with today. -/
theorem c10_routes_stamp_booking_with_current_date (db : DB) (su : Option Nat)
    (rid sid eid : Nat) (today : String) :
    (∀ rb ∈ (book_resource_route db su rid today).1.resource_bookings,
        rb ∈ db.resource_bookings ∨ rb.booking_date = today) ∧
    (∀ sb ∈ (book_space_route db su sid today).1.space_bookings,
        sb ∈ db.space_bookings ∨ sb.booking_date = today) ∧
    (∀ eb ∈ (book_event_route db su eid today).1.event_bookings,
        eb ∈ db.event_bookings ∨ eb.booking_date = today) := by
  refine ⟨?_, ?_, ?_⟩
  · intro x hx
    unfold book_resource_route at hx
    split at hx
    · exact Or.inl hx
    · split at hx
      · exact Or.inl hx
      · split at hx
        · exact Or.inl hx
        · simp [book_resource] at hx
          rcases hx with hold | hnew
          · exact Or.inl hold
          · subst hnew; exact Or.inr rfl
  · intro x hx
    unfold book_space_route at hx
    split at hx
    · exact Or.inl hx
    · split at hx
      · exact Or.inl hx
      · split at hx
        · exact Or.inl hx
        · simp [book_space] at hx
          rcases hx with hold | hnew
          · exact Or.inl hold
          · subst hnew; exact Or.inr rfl
  · intro x hx
    unfold book_event_route at hx
    split at hx
    · exact Or.inl hx
    · split at hx
      · exact Or.inl hx
      · split at hx
        · exact Or.inl hx
        · simp [book_event] at hx
          rcases hx with hold | hnew
          · exact Or.inl hold
          · subst hnew; exact Or.inr rfl

/-- C10 witness: user 2 books resource 7 on 2024-11-12 through the route;
the freshly created row is stamped with that day (it is not an old row of
`dbFull`, so the disjunction is decided by its booking date). -/
theorem c10_routes_stamp_booking_with_current_date_witness :
    (⟨2, 2, 7, "2024-11-12"⟩ : Booking) ∈ dbFull.resource_bookings ∨
      (⟨2, 2, 7, "2024-11-12"⟩ : Booking).booking_date = "2024-11-12" :=
  (c10_routes_stamp_booking_with_current_date dbFull (some 2) 7 4 3 ("2024-11-12")).1
    ⟨2, 2, 7, "2024-11-12"⟩ (by decide)

end SmartNeighborhood
